import Mathlib

/-!
Verification of the Dell iDRAC metrics-emulator pipeline.

Shallow embedding of the fleet telemetry generation and batched publishing
pipeline of this repository:

* `multi_server_emulator.py` — per-server metric generation
  (`ServerMetricsGenerator`), registry initialization
  (`MultiServerCloudWatchPublisher.__init__`), snapshot collection
  (`collect_all_metrics`), batching and per-batch publishing
  (`publish_all_metrics`, `publish_metrics_batch`);
* `idrac_emulator.py` — single-server metric generation (`MetricsGenerator`)
  and the single-server publish loop (`CloudWatchPublisher.publish_metrics`);
* `snmp_agent.py` — the OID constants of `DellSNMPAgent`.

Python floats are modelled as rationals; `random.uniform` / `random.randint`
draws are explicit parameters constrained by hypotheses that mirror the draw
windows; `datetime.utcnow()` is modelled by an arbitrary clock function
applied to a running call counter (one call per data point, exactly as the
source calls it once per appended point).
-/

namespace IdracEmu

/-! ## Batching (multi_server_emulator.py, publish_all_metrics, lines 121-131) -/

/-- Data point in the CloudWatch shape built by `collect_all_metrics`
(multi_server_emulator.py lines 77-87): metric name, value, unit,
timestamp of its own `datetime.utcnow()` call, and the two dimensions
`ServerID` and `MetricType`. -/
structure DataPoint where
  metricName : String
  value : ℚ
  unit : String
  timestamp : Nat
  serverID : String
  metricType : String
deriving DecidableEq

/-- Models the Python slicing loop `for i in range(0, len(l), k+1): l[i:i+(k+1)]`
for a positive step; the chunk size is `k + 1` so that termination is
structural in the argument.  `publish_all_metrics` runs this with
step `batch_size = 20`, i.e. `k = 19`. -/
def chunksBy (k : Nat) (l : List α) : List (List α) :=
  match l with
  | [] => []
  | a :: t => ((a :: t).take (k + 1)) :: chunksBy k ((a :: t).drop (k + 1))
termination_by l.length
decreasing_by simp [List.length_drop]; omega

/-- CloudWatch accepts max 20 metrics per request (`batch_size = 20` in
`publish_all_metrics`). -/
def batch_size : Nat := 20

/-- The batches built by `publish_all_metrics`: slices `all_metrics[i:i+20]`
for `i in range(0, len(all_metrics), 20)`. -/
def batches (l : List DataPoint) : List (List DataPoint) :=
  chunksBy 19 l

/-- Models `total_batches = len(all_metrics) // batch_size + (1 if
len(all_metrics) % batch_size else 0)` (multi_server_emulator.py line 123). -/
def total_batches (L : Nat) : Nat :=
  L / batch_size + (if L % batch_size ≠ 0 then 1 else 0)

/-! ## Metric generation (multi_server_emulator.py lines 30-53,
idrac_emulator.py lines 36-85) -/

/-- Models Python `round(x, 1)`: rounding to one decimal place.  (Python
rounds ties to even while `round` here rounds ties up; every bound proved
below is insensitive to the tie direction.) -/
def round1 (x : ℚ) : ℚ := (round (x * 10) : ℚ) / 10

/-- Models Python `round(x, 2)`: rounding to two decimal places. -/
def round2 (x : ℚ) : ℚ := (round (x * 100) : ℚ) / 100

/-- Per-server baseline state of `ServerMetricsGenerator.__init__`
(multi_server_emulator.py lines 33-38), drawn once at entity creation:
`base_cpu_temp = random.uniform(40, 50)`, `base_power = random.uniform(200,
400)`, `base_fan_speed = random.randint(2500, 4000)`. -/
structure ServerBaseline where
  base_cpu_temp : ℚ
  base_power : ℚ
  base_fan_speed : Int

/-- The constraint that a `ServerBaseline` is a possible draw of
`ServerMetricsGenerator.__init__`. -/
def ServerBaseline.Valid (g : ServerBaseline) : Prop :=
  40 ≤ g.base_cpu_temp ∧ g.base_cpu_temp ≤ 50 ∧
  200 ≤ g.base_power ∧ g.base_power ≤ 400 ∧
  2500 ≤ g.base_fan_speed ∧ g.base_fan_speed ≤ 4000

/-- The random draws consumed by one call of
`ServerMetricsGenerator.get_all_metrics` (multi_server_emulator.py lines
40-53), one field per `random.uniform` / `random.randint` call. -/
structure TickDraws where
  cpu1_noise : ℚ
  cpu2_noise : ℚ
  inlet : ℚ
  exhaust : ℚ
  fan1_noise : Int
  fan2_noise : Int
  power_noise : ℚ
  cpu_usage : ℚ
  memory_usage : ℚ
  disk_temp : ℚ

/-- The constraint that a `TickDraws` is a possible set of draws of
`get_all_metrics`: `uniform(-5, 15)` for the two CPU noises,
`uniform(20, 35)` inlet, `uniform(30, 50)` exhaust, `randint(-500, 1000)`
for the two fan noises, `uniform(-50, 100)` power noise, `uniform(10, 85)`
CPU usage, `uniform(30, 75)` memory usage, `uniform(25, 55)` disk
temperature. -/
def TickDraws.Valid (d : TickDraws) : Prop :=
  -5 ≤ d.cpu1_noise ∧ d.cpu1_noise ≤ 15 ∧
  -5 ≤ d.cpu2_noise ∧ d.cpu2_noise ≤ 15 ∧
  20 ≤ d.inlet ∧ d.inlet ≤ 35 ∧
  30 ≤ d.exhaust ∧ d.exhaust ≤ 50 ∧
  -500 ≤ d.fan1_noise ∧ d.fan1_noise ≤ 1000 ∧
  -500 ≤ d.fan2_noise ∧ d.fan2_noise ≤ 1000 ∧
  -50 ≤ d.power_noise ∧ d.power_noise ≤ 100 ∧
  10 ≤ d.cpu_usage ∧ d.cpu_usage ≤ 85 ∧
  30 ≤ d.memory_usage ∧ d.memory_usage ≤ 75 ∧
  25 ≤ d.disk_temp ∧ d.disk_temp ≤ 55

/-- Models the expression `round(self.base_cpu_temp + random.uniform(-5, 15), 1)`
of `get_all_metrics` (multi_server_emulator.py lines 43-44). -/
def fleet_cpu_temp (g : ServerBaseline) (noise : ℚ) : ℚ :=
  round1 (g.base_cpu_temp + noise)

/-- Models the expression `max(2000, self.base_fan_speed + random.randint(-500,
1000))` of `get_all_metrics` (multi_server_emulator.py lines 47-48). -/
def fleet_fan_speed (g : ServerBaseline) (noise : Int) : Int :=
  max 2000 (g.base_fan_speed + noise)

/-- Models the expression `round(self.base_power + random.uniform(-50, 100), 2)`
of `get_all_metrics` (multi_server_emulator.py line 49). -/
def fleet_power (g : ServerBaseline) (noise : ℚ) : ℚ :=
  round2 (g.base_power + noise)

/-- Models `ServerMetricsGenerator.get_all_metrics` (multi_server_emulator.py
lines 40-53) as the ordered association list of the dict it returns, for a
given baseline `g` and draw set `d`. -/
def get_all_metrics (g : ServerBaseline) (d : TickDraws) : List (String × ℚ) :=
  [("cpu1_temp", fleet_cpu_temp g d.cpu1_noise),
   ("cpu2_temp", fleet_cpu_temp g d.cpu2_noise),
   ("inlet_temp", round1 d.inlet),
   ("exhaust_temp", round1 d.exhaust),
   ("fan1_speed", ((fleet_fan_speed g d.fan1_noise : Int) : ℚ)),
   ("fan2_speed", ((fleet_fan_speed g d.fan2_noise : Int) : ℚ)),
   ("power_consumption", fleet_power g d.power_noise),
   ("cpu_usage", round2 d.cpu_usage),
   ("memory_usage", round2 d.memory_usage),
   ("disk_temp", round1 d.disk_temp)]

/-- Models `MetricsGenerator.get_cpu_temperature` (idrac_emulator.py lines
44-47): `round(45.0 + variation, 1)` with `variation = random.uniform(-5, 15)`. -/
def idrac_get_cpu_temperature (variation : ℚ) : ℚ := round1 (45 + variation)

/-- Models `MetricsGenerator.get_power_consumption` (idrac_emulator.py lines
66-69): `round(250.0 + variation, 2)` with `variation = random.uniform(-50, 150)`. -/
def idrac_get_power_consumption (variation : ℚ) : ℚ := round2 (250 + variation)

/-- Models `MetricsGenerator.get_fan_speed` (idrac_emulator.py lines 61-64):
`max(2000, 3000 + variation)` with `variation = random.randint(-1000, 2000)`. -/
def idrac_get_fan_speed (variation : Int) : Int := max 2000 (3000 + variation)

/-- Models `MetricsGenerator.get_cpu_usage` (idrac_emulator.py lines 71-73):
`round(random.uniform(10, 85), 2)`. -/
def idrac_get_cpu_usage (draw : ℚ) : ℚ := round2 draw

/-- Models `MetricsGenerator.get_memory_usage` (idrac_emulator.py lines
75-77): `round(random.uniform(30, 75), 2)`. -/
def idrac_get_memory_usage (draw : ℚ) : ℚ := round2 draw

/-- A baseline at the bottom of every creation-time draw window. -/
def gLow : ServerBaseline := ⟨40, 200, 2500⟩

/-- A tick draw set at the bottom of every per-call draw window. -/
def dLow : TickDraws := ⟨-5, -5, 20, 30, -500, -500, -50, 10, 30, 25⟩

/-- A baseline in the middle of the creation-time draw windows. -/
def gMid : ServerBaseline := ⟨45, 300, 3000⟩

/-- A tick draw set in the middle of the per-call draw windows. -/
def dMid : TickDraws := ⟨0, 0, 25, 40, 0, 0, 0, 50, 50, 30⟩

/-! ## Registry initialization (multi_server_emulator.py lines 58-67) -/

/-- Decimal digit character: models the digit characters produced by the
Python format specifier `d`. -/
def digitChar (d : Nat) : Char := Char.ofNat (48 + d)

/-- Big-endian decimal digits of `i` (empty for 0): models the digit string
of Python decimal formatting. -/
def decimalDigits (i : Nat) : List Nat := (Nat.digits 10 i).reverse

/-- Left zero-padding to width 3: models the `03` of the format `{i:03d}`. -/
def pad3 (ds : List Nat) : List Nat := List.replicate (3 - ds.length) 0 ++ ds

/-- Models `server_id = f"DELL-SRV-{i:03d}"` (multi_server_emulator.py
line 64). -/
def server_id (i : Nat) : String :=
  "DELL-SRV-" ++ String.mk ((pad3 (decimalDigits i)).map digitChar)

/-- Models the registry-building loop of
`MultiServerCloudWatchPublisher.__init__` (multi_server_emulator.py lines
63-65): `for i in range(1, num_servers + 1)`, collecting the keys of
`self.servers` in insertion order. -/
def init_servers (num_servers : Nat) : List String :=
  (List.range num_servers).map (fun k => server_id (k + 1))

/-- Registry-building for an arbitrary integer fleet size:
`range(1, num_servers + 1)` is empty whenever `num_servers ≤ 0`, which is
exactly `Int.toNat`. -/
def init_servers_int (num_servers : Int) : List String :=
  init_servers num_servers.toNat

/-! ## Snapshot collection (multi_server_emulator.py lines 69-102) -/

/-- Models the unit expression of `collect_all_metrics`
(multi_server_emulator.py line 81):
`'Percent' if 'usage' in metric_name else 'None'`; the Python substring
test `in` is `List.IsInfix` on the character lists. -/
def metric_unit (name : String) : String :=
  if List.IsInfix "usage".data name.data then "Percent" else "None"

/-- Models `MultiServerCloudWatchPublisher._get_metric_type`
(multi_server_emulator.py lines 91-102). -/
def get_metric_type (name : String) : String :=
  if List.IsInfix "temp".data name.data then "Thermal"
  else if List.IsInfix "fan".data name.data then "Cooling"
  else if List.IsInfix "power".data name.data then "Power"
  else if List.IsInfix "usage".data name.data then "Performance"
  else "General"

/-- The dict appended for one metric by `collect_all_metrics`
(multi_server_emulator.py lines 78-87). -/
def mkDataPoint (sid name : String) (v : ℚ) (ts : Nat) : DataPoint :=
  { metricName := name, value := v, unit := metric_unit name,
    timestamp := ts, serverID := sid, metricType := get_metric_type name }

/-- Inner loop of `collect_all_metrics` over one server's metrics dict
(multi_server_emulator.py lines 77-87); `t` is the running counter of
`datetime.utcnow()` calls — the source calls `utcnow()` once per appended
point, so the point appended at counter `t` is stamped `clock t`. -/
def points_for (sid : String) (clock : Nat → Nat) :
    Nat → List (String × ℚ) → List DataPoint
  | _, [] => []
  | t, (name, v) :: rest =>
      mkDataPoint sid name v (clock t) :: points_for sid clock (t + 1) rest

/-- Outer loop of `collect_all_metrics` over `self.servers.items()`
(multi_server_emulator.py lines 73-89); `t` is the running `utcnow()` call
counter, `s` the server position selecting that server's tick draws. -/
def collect_go (clock : Nat → Nat) (draws : Nat → TickDraws) :
    Nat → Nat → List (String × ServerBaseline) → List DataPoint
  | _, _, [] => []
  | t, s, (sid, g) :: rest =>
      points_for sid clock t (get_all_metrics g (draws s)) ++
        collect_go clock draws (t + (get_all_metrics g (draws s)).length)
          (s + 1) rest

/-- Models `MultiServerCloudWatchPublisher.collect_all_metrics`
(multi_server_emulator.py lines 69-89) for a given clock (the successive
values returned by `datetime.utcnow()`), per-server tick draws, and server
registry. -/
def collect_all_metrics (clock : Nat → Nat) (draws : Nat → TickDraws)
    (servers : List (String × ServerBaseline)) : List DataPoint :=
  collect_go clock draws 0 0 servers

/-! ## Per-batch publishing (multi_server_emulator.py lines 104-132 and
idrac_emulator.py lines 355-385) -/

/-- Fleet publish loop of `publish_all_metrics` (multi_server_emulator.py
lines 126-129): every batch is submitted through its own
`publish_metrics_batch`, which catches its own exception and returns a
Bool, so a failed batch never aborts the loop.  `submit i` tells whether
the backend accepts batch `i`; the result is the list of batch indices
attempted and the `successful_batches` counter. -/
def fleet_publish_go (submit : Nat → Bool) :
    Nat → List (List DataPoint) → List Nat × Nat
  | _, [] => ([], 0)
  | i, _ :: rest =>
      let r := fleet_publish_go submit (i + 1) rest
      (i :: r.1, (if submit i then 1 else 0) + r.2)

/-- Models `publish_all_metrics` (multi_server_emulator.py lines 116-132):
collect is already done, `l` is `all_metrics`; returns the attempted batch
indices, `successful_batches`, and the returned Bool
`successful_batches == total_batches`. -/
def publish_all_metrics (submit : Nat → Bool) (l : List DataPoint) :
    List Nat × Nat × Bool :=
  let r := fleet_publish_go submit 0 (batches l)
  (r.1, r.2, r.2 == total_batches l.length)

/-- Single-server publish loop of `CloudWatchPublisher.publish_metrics`
(idrac_emulator.py lines 360-385): one `try` wraps the whole batch loop, so
the first failing `put_metric_data` call raises out of the loop and the
remaining batches of that tick are never attempted.  Returns the list of
batch indices attempted. -/
def idrac_publish_go (submit : Nat → Bool) :
    Nat → List (List DataPoint) → List Nat
  | _, [] => []
  | i, _ :: rest =>
      if submit i then i :: idrac_publish_go submit (i + 1) rest else [i]

/-- The single-server publish pipeline on a metric list `l`: chunk into
batches of 20, then run the loop inside the single `try`. -/
def idrac_publish_metrics (submit : Nat → Bool) (l : List DataPoint) :
    List Nat :=
  idrac_publish_go submit 0 (batches l)

/-- A fixed data point used for concrete publishing scenarios. -/
def demoPoint : DataPoint :=
  ⟨"cpu1_temp", 45, "None", 0, "DELL-SRV-001", "Thermal"⟩

/-- The batching loop of `publish_all_metrics` generalized over the slicing
step, following Python `range(0, len(l), step)` semantics for every integer
step: `range` raises ValueError when the step is 0, produces no indices at
all when the step is negative (the stop `len(l)` is never below the start
0), and slices forward when the step is positive — the deployed code runs
this with the literal step 20. -/
def chunk_with_step (l : List DataPoint) (step : Int) :
    Except String (List (List DataPoint)) :=
  if step = 0 then
    Except.error "ValueError: range() arg 3 must not be zero"
  else if step < 0 then Except.ok []
  else Except.ok (chunksBy (step.toNat - 1) l)

/-! ## SNMP OID constants (snmp_agent.py lines 22-51 and 126-185) -/

/-- Dell enterprise OID root (snmp_agent.py line 26). -/
def DELL_OID_BASE : List Nat := [1, 3, 6, 1, 4, 1, 674]

/-- CPU temperature OID (snmp_agent.py line 30). -/
def CPU_TEMP_OID : List Nat :=
  DELL_OID_BASE ++ [10892, 5, 4, 700, 20, 1, 6, 1, 1]

/-- Inlet temperature OID (snmp_agent.py line 31). -/
def INLET_TEMP_OID : List Nat :=
  DELL_OID_BASE ++ [10892, 5, 4, 700, 20, 1, 6, 1, 2]

/-- Exhaust temperature OID (snmp_agent.py line 32). -/
def EXHAUST_TEMP_OID : List Nat :=
  DELL_OID_BASE ++ [10892, 5, 4, 700, 20, 1, 6, 1, 3]

/-- Fan 1 speed OID (snmp_agent.py line 35). -/
def FAN1_SPEED_OID : List Nat :=
  DELL_OID_BASE ++ [10892, 5, 4, 700, 12, 1, 6, 1, 1]

/-- Fan 2 speed OID (snmp_agent.py line 36). -/
def FAN2_SPEED_OID : List Nat :=
  DELL_OID_BASE ++ [10892, 5, 4, 700, 12, 1, 6, 1, 2]

/-- Fan 3 speed OID (snmp_agent.py line 37). -/
def FAN3_SPEED_OID : List Nat :=
  DELL_OID_BASE ++ [10892, 5, 4, 700, 12, 1, 6, 1, 3]

/-- Power consumption OID (snmp_agent.py line 40). -/
def POWER_CONSUMPTION_OID : List Nat :=
  DELL_OID_BASE ++ [10892, 5, 4, 600, 30, 1, 6, 1, 3]

/-- Power status OID (snmp_agent.py line 41). -/
def POWER_STATUS_OID : List Nat :=
  DELL_OID_BASE ++ [10892, 5, 4, 600, 12, 1, 5, 1, 1]

/-- System status OID (snmp_agent.py line 44). -/
def SYSTEM_STATUS_OID : List Nat :=
  DELL_OID_BASE ++ [10892, 5, 4, 200, 10, 1, 4, 1]

/-- Chassis status OID (snmp_agent.py line 45) — the source assigns it the
same tuple as the system status OID. -/
def CHASSIS_STATUS_OID : List Nat :=
  DELL_OID_BASE ++ [10892, 5, 4, 200, 10, 1, 4, 1]

/-- Memory status OID (snmp_agent.py line 48). -/
def MEMORY_STATUS_OID : List Nat :=
  DELL_OID_BASE ++ [10892, 5, 4, 1100, 50, 1, 5, 1, 1]

/-- Disk status OID (snmp_agent.py line 51). -/
def DISK_STATUS_OID : List Nat :=
  DELL_OID_BASE ++ [10892, 5, 5, 1, 20, 130, 4, 1, 4]

/-- The OIDs under which `add_mib_objects` registers scalar readings
(snmp_agent.py lines 137-183), in `writeVars` call order. -/
def registered_oids : List (List Nat) :=
  [CPU_TEMP_OID, INLET_TEMP_OID, EXHAUST_TEMP_OID, FAN1_SPEED_OID,
   FAN2_SPEED_OID, FAN3_SPEED_OID, POWER_CONSUMPTION_OID, POWER_STATUS_OID,
   SYSTEM_STATUS_OID, CHASSIS_STATUS_OID, MEMORY_STATUS_OID, DISK_STATUS_OID]

/-! ## Theorems -/

theorem chunksBy_flatten (k : Nat) (l : List α) : (chunksBy k l).flatten = l := by
  induction l using chunksBy.induct k with
  | case1 => simp [chunksBy]
  | case2 a t ih =>
    rw [chunksBy]
    simp only [List.flatten_cons, ih, List.take_append_drop]

theorem chunksBy_length_le (k : Nat) (l : List α) :
    ∀ b ∈ chunksBy k l, b.length ≤ k + 1 := by
  induction l using chunksBy.induct k with
  | case1 => simp [chunksBy]
  | case2 a t ih =>
    rw [chunksBy]
    intro b hb
    rcases List.mem_cons.mp hb with h | h
    · subst h; simp
    · exact ih b h

theorem chunksBy_dropLast_length (k : Nat) (l : List α) :
    ∀ b ∈ (chunksBy k l).dropLast, b.length = k + 1 := by
  induction l using chunksBy.induct k with
  | case1 => simp [chunksBy]
  | case2 a t ih =>
    rw [chunksBy]
    intro b hb
    by_cases hrest : chunksBy k ((a :: t).drop (k + 1)) = []
    · rw [hrest] at hb
      simp at hb
    · rw [List.dropLast_cons_of_ne_nil hrest] at hb
      rcases List.mem_cons.mp hb with h | h
      · subst h
        have hd : (a :: t).drop (k + 1) ≠ [] := by
          intro hnil
          rw [hnil] at hrest
          exact hrest (by simp [chunksBy])
        have hlen : k + 1 < (a :: t).length := by
          by_contra hle
          push_neg at hle
          exact hd (List.drop_eq_nil_of_le hle)
        simpa using List.length_take_of_le (Nat.le_of_lt hlen)
      · exact ih b h

theorem batches_length (l : List DataPoint) :
    (batches l).length = (l.length + 19) / 20 := by
  unfold batches
  generalize hn : l.length = n
  induction n using Nat.strong_induction_on generalizing l with
  | _ n ih =>
    cases l with
    | nil =>
      simp only [List.length_nil] at hn
      subst hn
      simp [chunksBy]
    | cons a t =>
      rw [chunksBy]
      simp only [List.length_cons] at hn
      rcases Nat.lt_or_ge n 20 with hlt | hge
      · have hdrop : (a :: t).drop (19 + 1) = [] :=
          List.drop_eq_nil_of_le (by simp; omega)
        rw [hdrop]
        simp [chunksBy]
        omega
      · have hlen : ((a :: t).drop (19 + 1)).length = n - 20 := by
          simp; omega
        rw [List.length_cons, ih (n - 20) (by omega) _ hlen]
        omega

theorem total_batches_eq (l : List DataPoint) :
    total_batches l.length = (batches l).length := by
  rw [batches_length]
  unfold total_batches batch_size
  by_cases h : l.length % 20 = 0 <;> simp [h] <;> omega

/-- C1: the batching step of `publish_all_metrics` is an exact partition.
For every input sequence of data points of length `L` and the fixed
`batch_size = 20`, it produces `ceil(L/20)` batches (which also equals the
`total_batches` count computed by the code), every batch except possibly the
last has exactly 20 elements, no batch exceeds 20 elements, and
concatenating the batches in order reproduces the input sequence exactly. -/
theorem C1_batching_exact_partition (l : List DataPoint) :
    (batches l).flatten = l ∧
    (batches l).length = (l.length + 19) / 20 ∧
    total_batches l.length = (batches l).length ∧
    (∀ b ∈ batches l, b.length ≤ batch_size) ∧
    (∀ b ∈ (batches l).dropLast, b.length = batch_size) := by
  refine ⟨chunksBy_flatten 19 l, batches_length l, total_batches_eq l, ?_, ?_⟩
  · exact chunksBy_length_le 19 l
  · exact chunksBy_dropLast_length 19 l

theorem round_le_round {x y : ℚ} (h : x ≤ y) : round x ≤ round y := by
  rw [round_eq, round_eq]
  exact Int.floor_mono (by linarith)

theorem le_round1 {m : ℤ} {x : ℚ} (h : (m : ℚ) ≤ x) : (m : ℚ) ≤ round1 x := by
  unfold round1
  have h1 : round ((m * 10 : ℤ) : ℚ) ≤ round (x * 10) :=
    round_le_round (by push_cast; linarith)
  rw [round_intCast] at h1
  rw [le_div_iff₀ (by norm_num : (0:ℚ) < 10)]
  calc (m : ℚ) * 10 = ((m * 10 : ℤ) : ℚ) := by push_cast; ring
    _ ≤ (round (x * 10) : ℚ) := by exact_mod_cast h1

theorem round1_le {m : ℤ} {x : ℚ} (h : x ≤ (m : ℚ)) : round1 x ≤ (m : ℚ) := by
  unfold round1
  have h1 : round (x * 10) ≤ round ((m * 10 : ℤ) : ℚ) :=
    round_le_round (by push_cast; linarith)
  rw [round_intCast] at h1
  rw [div_le_iff₀ (by norm_num : (0:ℚ) < 10)]
  calc (round (x * 10) : ℚ) ≤ ((m * 10 : ℤ) : ℚ) := by exact_mod_cast h1
    _ = (m : ℚ) * 10 := by push_cast; ring

theorem le_round2 {m : ℤ} {x : ℚ} (h : (m : ℚ) ≤ x) : (m : ℚ) ≤ round2 x := by
  unfold round2
  have h1 : round ((m * 100 : ℤ) : ℚ) ≤ round (x * 100) :=
    round_le_round (by push_cast; linarith)
  rw [round_intCast] at h1
  rw [le_div_iff₀ (by norm_num : (0:ℚ) < 100)]
  calc (m : ℚ) * 100 = ((m * 100 : ℤ) : ℚ) := by push_cast; ring
    _ ≤ (round (x * 100) : ℚ) := by exact_mod_cast h1

theorem round2_le {m : ℤ} {x : ℚ} (h : x ≤ (m : ℚ)) : round2 x ≤ (m : ℚ) := by
  unfold round2
  have h1 : round (x * 100) ≤ round ((m * 100 : ℤ) : ℚ) :=
    round_le_round (by push_cast; linarith)
  rw [round_intCast] at h1
  rw [div_le_iff₀ (by norm_num : (0:ℚ) < 100)]
  calc (round (x * 100) : ℚ) ≤ ((m * 100 : ℤ) : ℚ) := by exact_mod_cast h1
    _ = (m : ℚ) * 100 := by push_cast; ring

theorem round1_intValue {x : ℚ} {n : ℤ} (h : x * 10 = (n : ℚ)) :
    round1 x = (n : ℚ) / 10 := by
  rw [round1, h, round_intCast]

theorem round2_intValue {x : ℚ} {n : ℤ} (h : x * 100 = (n : ℚ)) :
    round2 x = (n : ℚ) / 100 := by
  rw [round2, h, round_intCast]

theorem fleet_cpu_temp_low : fleet_cpu_temp gLow (-5) = 35 := by
  have h : fleet_cpu_temp gLow (-5) = round1 (40 + (-5)) := rfl
  rw [h, round1_intValue (n := 350) (by norm_num)]
  norm_num

theorem fleet_power_low : fleet_power gLow (-50) = 150 := by
  have h : fleet_power gLow (-50) = round2 (200 + (-50)) := rfl
  rw [h, round2_intValue (n := 15000) (by norm_num)]
  norm_num

/-- C2 counterexample: with the baseline `base_cpu_temp = 40` (a possible
`random.uniform(40, 50)` draw) and noise `-5` (a possible
`random.uniform(-5, 15)` draw), the fleet generator emits `cpu1_temp = 35`,
below the documented CPU-temperature floor 40; likewise with `base_power =
200` and power noise `-50` it emits `power_consumption = 150`, below the
documented power floor 200. -/
theorem C2_range_counterexample :
    gLow.Valid ∧ dLow.Valid ∧
    (get_all_metrics gLow dLow).get? 0 = some ("cpu1_temp", 35) ∧
    ¬ (40 ≤ (35 : ℚ)) ∧
    (get_all_metrics gLow dLow).get? 6 = some ("power_consumption", 150) ∧
    ¬ (200 ≤ (150 : ℚ)) := by
  refine ⟨?_, ?_, ?_, by norm_num, ?_, by norm_num⟩
  · refine ⟨?_, ?_, ?_, ?_, ?_, ?_⟩ <;> norm_num [gLow]
  · refine ⟨?_, ?_, ?_, ?_, ?_, ?_, ?_, ?_, ?_, ?_,
      ?_, ?_, ?_, ?_, ?_, ?_, ?_, ?_, ?_, ?_⟩ <;> norm_num [dLow]
  · have h1 : dLow.cpu1_noise = -5 := rfl
    simp only [get_all_metrics, List.get?, h1, fleet_cpu_temp_low]
  · have h1 : dLow.power_noise = -50 := rfl
    simp only [get_all_metrics, List.get?, h1, fleet_power_low]

/-- C2 amended: generated values stay within these ranges, which for the
fleet generator are wider below than the documented ones — fleet CPU
temperature lies in [35, 65] (and can be 35 < 40), fleet power lies in
[150, 500] (and can be 150 < 200) — while utilizations stay within [0, 100]
and the single-server generator stays within the documented CPU-temperature
range [40, 85] and power range [200, 600]. -/
theorem C2_amended_metric_ranges (g : ServerBaseline) (d : TickDraws)
    (cv pv cu mu : ℚ)
    (hg : g.Valid) (hd : d.Valid)
    (hcv1 : -5 ≤ cv) (hcv2 : cv ≤ 15)
    (hpv1 : -50 ≤ pv) (hpv2 : pv ≤ 150)
    (hcu1 : 10 ≤ cu) (hcu2 : cu ≤ 85)
    (hmu1 : 30 ≤ mu) (hmu2 : mu ≤ 75) :
    (35 ≤ fleet_cpu_temp g d.cpu1_noise ∧ fleet_cpu_temp g d.cpu1_noise ≤ 65) ∧
    (35 ≤ fleet_cpu_temp g d.cpu2_noise ∧ fleet_cpu_temp g d.cpu2_noise ≤ 65) ∧
    (20 ≤ round1 d.inlet ∧ round1 d.inlet ≤ 35) ∧
    (30 ≤ round1 d.exhaust ∧ round1 d.exhaust ≤ 50) ∧
    ((2000 : Int) ≤ fleet_fan_speed g d.fan1_noise ∧
      fleet_fan_speed g d.fan1_noise ≤ 5000) ∧
    ((2000 : Int) ≤ fleet_fan_speed g d.fan2_noise ∧
      fleet_fan_speed g d.fan2_noise ≤ 5000) ∧
    (150 ≤ fleet_power g d.power_noise ∧ fleet_power g d.power_noise ≤ 500) ∧
    (0 ≤ round2 d.cpu_usage ∧ round2 d.cpu_usage ≤ 100) ∧
    (0 ≤ round2 d.memory_usage ∧ round2 d.memory_usage ≤ 100) ∧
    (25 ≤ round1 d.disk_temp ∧ round1 d.disk_temp ≤ 55) ∧
    (40 ≤ idrac_get_cpu_temperature cv ∧ idrac_get_cpu_temperature cv ≤ 85) ∧
    (200 ≤ idrac_get_power_consumption pv ∧
      idrac_get_power_consumption pv ≤ 600) ∧
    (0 ≤ idrac_get_cpu_usage cu ∧ idrac_get_cpu_usage cu ≤ 100) ∧
    (0 ≤ idrac_get_memory_usage mu ∧ idrac_get_memory_usage mu ≤ 100) := by
  obtain ⟨hg1, hg2, hg3, hg4, hg5, hg6⟩ := hg
  obtain ⟨h1, h2, h3, h4, h5, h6, h7, h8, h9, h10,
    h11, h12, h13, h14, h15, h16, h17, h18, h19, h20⟩ := hd
  have fan : ∀ n : Int, -500 ≤ n → n ≤ 1000 →
      (2000 : Int) ≤ fleet_fan_speed g n ∧ fleet_fan_speed g n ≤ 5000 := by
    intro n hn1 hn2
    unfold fleet_fan_speed
    constructor
    · exact le_max_left _ _
    · exact max_le (by norm_num) (by omega)
  have lo1 : ∀ (m : ℤ) (x : ℚ), (m : ℚ) ≤ x → (m : ℚ) ≤ round1 x :=
    fun _ _ h => le_round1 h
  have hi1 : ∀ (m : ℤ) (x : ℚ), x ≤ (m : ℚ) → round1 x ≤ (m : ℚ) :=
    fun _ _ h => round1_le h
  have lo2 : ∀ (m : ℤ) (x : ℚ), (m : ℚ) ≤ x → (m : ℚ) ≤ round2 x :=
    fun _ _ h => le_round2 h
  have hi2 : ∀ (m : ℤ) (x : ℚ), x ≤ (m : ℚ) → round2 x ≤ (m : ℚ) :=
    fun _ _ h => round2_le h
  unfold fleet_cpu_temp fleet_power idrac_get_cpu_temperature
    idrac_get_power_consumption idrac_get_cpu_usage idrac_get_memory_usage
  refine ⟨⟨?_, ?_⟩, ⟨?_, ?_⟩, ⟨?_, ?_⟩, ⟨?_, ?_⟩, fan _ h9 h10, fan _ h11 h12,
    ⟨?_, ?_⟩, ⟨?_, ?_⟩, ⟨?_, ?_⟩, ⟨?_, ?_⟩, ⟨?_, ?_⟩, ⟨?_, ?_⟩, ⟨?_, ?_⟩,
    ⟨?_, ?_⟩⟩
  · exact_mod_cast lo1 35 _ (by push_cast; linarith)
  · exact_mod_cast hi1 65 _ (by push_cast; linarith)
  · exact_mod_cast lo1 35 _ (by push_cast; linarith)
  · exact_mod_cast hi1 65 _ (by push_cast; linarith)
  · exact_mod_cast lo1 20 _ (by push_cast; linarith)
  · exact_mod_cast hi1 35 _ (by push_cast; linarith)
  · exact_mod_cast lo1 30 _ (by push_cast; linarith)
  · exact_mod_cast hi1 50 _ (by push_cast; linarith)
  · exact_mod_cast lo2 150 _ (by push_cast; linarith)
  · exact_mod_cast hi2 500 _ (by push_cast; linarith)
  · exact_mod_cast lo2 0 _ (by push_cast; linarith)
  · exact_mod_cast hi2 100 _ (by push_cast; linarith)
  · exact_mod_cast lo2 0 _ (by push_cast; linarith)
  · exact_mod_cast hi2 100 _ (by push_cast; linarith)
  · exact_mod_cast lo1 25 _ (by push_cast; linarith)
  · exact_mod_cast hi1 55 _ (by push_cast; linarith)
  · exact_mod_cast lo1 40 _ (by push_cast; linarith)
  · exact_mod_cast hi1 85 _ (by push_cast; linarith)
  · exact_mod_cast lo2 200 _ (by push_cast; linarith)
  · exact_mod_cast hi2 600 _ (by push_cast; linarith)
  · exact_mod_cast lo2 0 _ (by push_cast; linarith)
  · exact_mod_cast hi2 100 _ (by push_cast; linarith)
  · exact_mod_cast lo2 0 _ (by push_cast; linarith)
  · exact_mod_cast hi2 100 _ (by push_cast; linarith)

/-- Witness for C2 amended, at the concrete baseline `gMid` and draws `dMid`. -/
theorem C2_amended_metric_ranges_witness :
    35 ≤ fleet_cpu_temp gMid dMid.cpu1_noise ∧
      fleet_cpu_temp gMid dMid.cpu1_noise ≤ 65 :=
  (C2_amended_metric_ranges gMid dMid 0 0 50 50
    (by refine ⟨?_, ?_, ?_, ?_, ?_, ?_⟩ <;> norm_num [gMid])
    (by refine ⟨?_, ?_, ?_, ?_, ?_, ?_, ?_, ?_, ?_, ?_,
          ?_, ?_, ?_, ?_, ?_, ?_, ?_, ?_, ?_, ?_⟩ <;> norm_num [dMid])
    (by norm_num) (by norm_num) (by norm_num) (by norm_num)
    (by norm_num) (by norm_num) (by norm_num) (by norm_num)).1

/-- C6: `MetricsGenerator.get_fan_speed` — baseline 3000 plus a noise draw
from the window [-1000, 2000], clamped by `max(2000, ...)` — never returns a
value below the floor 2000, for every possible noise draw. -/
theorem C6_fan_speed_floor (variation : Int)
    (h1 : -1000 ≤ variation) (h2 : variation ≤ 2000) :
    2000 ≤ idrac_get_fan_speed variation :=
  le_max_left _ _

/-- Witness for C6 at the most adverse draw in the window, `variation = -1000`. -/
theorem C6_fan_speed_floor_witness :
    (-1000 : Int) ≤ -1000 ∧ (-1000 : Int) ≤ 2000 ∧
      2000 ≤ idrac_get_fan_speed (-1000) :=
  ⟨by decide, by decide, C6_fan_speed_floor (-1000) (by decide) (by decide)⟩

theorem digitChar_inj : ∀ d1 < 10, ∀ d2 < 10,
    digitChar d1 = digitChar d2 → d1 = d2 := by decide

theorem map_digitChar_inj : ∀ {l1 l2 : List Nat},
    (∀ d ∈ l1, d < 10) → (∀ d ∈ l2, d < 10) →
    l1.map digitChar = l2.map digitChar → l1 = l2 := by
  intro l1
  induction l1 with
  | nil =>
    intro l2 _ _ h
    cases l2 with
    | nil => rfl
    | cons b t2 => simp at h
  | cons a t1 ih =>
    intro l2 h1 h2 h
    cases l2 with
    | nil => simp at h
    | cons b t2 =>
      simp only [List.map_cons, List.cons.injEq] at h
      have ha : a < 10 := h1 a (List.mem_cons_self a t1)
      have hb : b < 10 := h2 b (List.mem_cons_self b t2)
      have hab : a = b := digitChar_inj a ha b hb h.1
      have ht : t1 = t2 :=
        ih (fun d hd => h1 d (List.mem_cons_of_mem a hd))
          (fun d hd => h2 d (List.mem_cons_of_mem b hd)) h.2
      rw [hab, ht]

theorem pad3_decimalDigits_lt (i : Nat) :
    ∀ d ∈ pad3 (decimalDigits i), d < 10 := by
  intro d hd
  unfold pad3 decimalDigits at hd
  rcases List.mem_append.mp hd with h | h
  · have := List.eq_of_mem_replicate h
    omega
  · exact Nat.digits_lt_base (by norm_num) (List.mem_reverse.mp h)

theorem dropWhile_zeros_replicate (r : Nat) (ds : List Nat) :
    List.dropWhile (fun d => d == 0) (List.replicate r 0 ++ ds) =
      List.dropWhile (fun d => d == 0) ds := by
  induction r with
  | zero => simp
  | succ r ih => simpa [List.replicate_succ, List.dropWhile_cons] using ih

theorem dropWhile_zeros_pad3 (ds : List Nat)
    (h : ∀ d, ds.head? = some d → d ≠ 0) :
    List.dropWhile (fun d => d == 0) (pad3 ds) = ds := by
  unfold pad3
  rw [dropWhile_zeros_replicate]
  cases ds with
  | nil => rfl
  | cons d t =>
    have hd : d ≠ 0 := h d rfl
    simp [List.dropWhile_cons, hd]

theorem decimalDigits_head_ne_zero (i : Nat) (hi : i ≠ 0) :
    ∀ d, (decimalDigits i).head? = some d → d ≠ 0 := by
  intro d hd
  unfold decimalDigits at hd
  rw [List.head?_reverse] at hd
  have hne : Nat.digits 10 i ≠ [] := Nat.digits_ne_nil_iff_ne_zero.mpr hi
  rw [List.getLast?_eq_getLast _ hne] at hd
  have := Nat.getLast_digit_ne_zero 10 hi
  simp only [Option.some.injEq] at hd
  subst hd
  exact this

theorem pad3_decimalDigits_inj {i j : Nat} (hi : i ≠ 0) (hj : j ≠ 0)
    (h : pad3 (decimalDigits i) = pad3 (decimalDigits j)) : i = j := by
  have h2 : decimalDigits i = decimalDigits j := by
    have hdi := dropWhile_zeros_pad3 _ (decimalDigits_head_ne_zero i hi)
    have hdj := dropWhile_zeros_pad3 _ (decimalDigits_head_ne_zero j hj)
    rw [← hdi, ← hdj, h]
  have h3 : Nat.digits 10 i = Nat.digits 10 j :=
    List.reverse_injective h2
  calc i = Nat.ofDigits 10 (Nat.digits 10 i) := (Nat.ofDigits_digits 10 i).symm
    _ = Nat.ofDigits 10 (Nat.digits 10 j) := by rw [h3]
    _ = j := Nat.ofDigits_digits 10 j

theorem server_id_inj {i j : Nat} (hi : i ≠ 0) (hj : j ≠ 0)
    (h : server_id i = server_id j) : i = j := by
  have h2 : "DELL-SRV-".data ++ (pad3 (decimalDigits i)).map digitChar =
      "DELL-SRV-".data ++ (pad3 (decimalDigits j)).map digitChar := by
    have := congrArg String.data h
    simpa [server_id, String.data_append] using this
  have h3 := List.append_cancel_left h2
  exact pad3_decimalDigits_inj hi hj
    (map_digitChar_inj (pad3_decimalDigits_lt i) (pad3_decimalDigits_lt j) h3)

/-- Evaluation sanity checks of the identifier format: the index is
zero-padded to width 3, wider indices keep all their digits. -/
theorem server_id_eval :
    server_id 7 = "DELL-SRV-007" ∧ server_id 1234 = "DELL-SRV-1234" := by
  have h7 : Nat.digits 10 7 = [7] := by norm_num
  have h1234 : Nat.digits 10 1234 = [4, 3, 2, 1] := by norm_num
  constructor
  · rw [server_id, decimalDigits, h7]; decide
  · rw [server_id, decimalDigits, h1234]; decide

/-- C5: for every fleet size `n ≥ 1`, registry initialization produces
exactly `n` entities with pairwise-distinct identifiers, where the
identifier of the `(k+1)`-th entity is deterministically the fixed text
`DELL-SRV-` followed by the zero-padded decimal index `k+1`; the identifiers
are a pure function of the index, hence stable across runs with the same
fleet size. -/
theorem C5_registry_identifiers (n : Nat) (h : 1 ≤ n) :
    (init_servers n).length = n ∧
    (init_servers n).Nodup ∧
    ∀ k, k < n → (init_servers n).get? k =
      some ("DELL-SRV-" ++
        String.mk ((pad3 (decimalDigits (k + 1))).map digitChar)) := by
  refine ⟨by simp [init_servers], ?_, ?_⟩
  · apply List.Nodup.map ?_ (List.nodup_range n)
    intro a b hab
    have := server_id_inj (Nat.succ_ne_zero a) (Nat.succ_ne_zero b) hab
    omega
  · intro k hk
    simp only [init_servers, List.get?_map, List.get?_range hk, Option.map_some]
    rfl

/-- Witness for C5 at the concrete fleet size 3. -/
theorem C5_registry_identifiers_witness :
    (1 ≤ 3) ∧ (init_servers 3).length = 3 ∧ (init_servers 3).Nodup :=
  ⟨by decide, (C5_registry_identifiers 3 (by decide)).1,
    (C5_registry_identifiers 3 (by decide)).2.1⟩

/-- C7 counterexample: at the non-positive fleet sizes 0 and -5,
registry initialization does not fail with any error — the loop
`range(1, num_servers + 1)` is empty and an empty registry is constructed
(the embedding is a total function because the source `__init__` contains no
validation and no ConfigurationError exists anywhere in the repository). -/
theorem C7_no_validation_counterexample :
    init_servers_int 0 = [] ∧ init_servers_int (-5) = [] := by
  constructor <;> rfl

/-- C7 amended: registry initialization performs no fleet-size validation
and cannot fail; for every fleet size `n ≤ 0` it constructs an empty
registry (0 entities) rather than raising a ConfigurationError, and in
general it constructs exactly `max n 0` entities. -/
theorem C7_amended_no_fleet_size_validation (n : Int) :
    (n ≤ 0 → init_servers_int n = []) ∧
    (init_servers_int n).length = n.toNat := by
  constructor
  · intro hn
    have h0 : n.toNat = 0 := Int.toNat_of_nonpos hn
    simp [init_servers_int, h0, init_servers]
  · simp [init_servers_int, init_servers]

/-- Witness for C7 amended at the concrete fleet size -3. -/
theorem C7_amended_no_fleet_size_validation_witness :
    init_servers_int (-3) = [] :=
  (C7_amended_no_fleet_size_validation (-3)).1 (by decide)

theorem points_for_timestamps (sid : String) (clock : Nat → Nat)
    (t : Nat) (ms : List (String × ℚ)) :
    (points_for sid clock t ms).map (fun dp => dp.timestamp) =
      (List.range' t ms.length).map clock := by
  induction ms generalizing t with
  | nil => rfl
  | cons m rest ih =>
    obtain ⟨name, v⟩ := m
    simp only [points_for, List.map_cons, List.length_cons, List.range'_succ,
      ih (t + 1)]
    rfl

theorem points_for_length (sid : String) (clock : Nat → Nat)
    (t : Nat) (ms : List (String × ℚ)) :
    (points_for sid clock t ms).length = ms.length := by
  have := congrArg List.length (points_for_timestamps sid clock t ms)
  simpa using this

theorem get_all_metrics_length (g : ServerBaseline) (d : TickDraws) :
    (get_all_metrics g d).length = 10 := rfl

theorem collect_go_timestamps (clock : Nat → Nat) (draws : Nat → TickDraws)
    (t s : Nat) (servers : List (String × ServerBaseline)) :
    (collect_go clock draws t s servers).map (fun dp => dp.timestamp) =
      (List.range' t (10 * servers.length)).map clock := by
  induction servers generalizing t s with
  | nil => rfl
  | cons srv rest ih =>
    obtain ⟨sid, g⟩ := srv
    have happ := List.range'_append t 10 (10 * rest.length) 1
    simp only [one_mul] at happ
    calc (collect_go clock draws t s ((sid, g) :: rest)).map
          (fun dp => dp.timestamp)
        = (points_for sid clock t (get_all_metrics g (draws s))).map
            (fun dp => dp.timestamp) ++
          (collect_go clock draws (t + 10) (s + 1) rest).map
            (fun dp => dp.timestamp) := by
          simp [collect_go, get_all_metrics_length]
      _ = (List.range' t 10).map clock ++
          (List.range' (t + 10) (10 * rest.length)).map clock := by
          rw [points_for_timestamps, ih, get_all_metrics_length]
      _ = (List.range' t (10 * rest.length + 10)).map clock := by
          rw [← List.map_append, happ]
      _ = (List.range' t (10 * ((sid, g) :: rest).length)).map clock := by
          rw [List.length_cons]
          ring_nf

theorem collect_go_length (clock : Nat → Nat) (draws : Nat → TickDraws)
    (t s : Nat) (servers : List (String × ServerBaseline)) :
    (collect_go clock draws t s servers).length = 10 * servers.length := by
  have := congrArg List.length (collect_go_timestamps clock draws t s servers)
  simpa using this

/-- C4 counterexample: with one server and a clock that advances between
`utcnow()` calls (successive calls return 0, 1, 2, ...), the first and
second data point of the snapshot carry different timestamps — the source
stamps each point with its own `datetime.utcnow()` call rather than one
tick-start time, so the points of a snapshot need not share a timestamp. -/
theorem C4_shared_timestamp_counterexample :
    ((collect_all_metrics (fun k => k) (fun _ => dMid)
        [("DELL-SRV-001", gMid)]).map (fun dp => dp.timestamp)).get? 0 =
      some 0 ∧
    ((collect_all_metrics (fun k => k) (fun _ => dMid)
        [("DELL-SRV-001", gMid)]).map (fun dp => dp.timestamp)).get? 1 =
      some 1 ∧
    some (0 : Nat) ≠ some 1 :=
  ⟨rfl, rfl, by decide⟩

/-- C4 amended: for every registry of `N` entities with the 10 declared
metric kinds per entity, one snapshot collection produces exactly `N × 10`
data points; the `k`-th data point is stamped with the `k`-th `utcnow()`
reading (`clock k`) taken when that point is appended, not with one shared
tick-start timestamp. -/
theorem C4_amended_snapshot_count_timestamps (clock : Nat → Nat)
    (draws : Nat → TickDraws) (servers : List (String × ServerBaseline)) :
    (collect_all_metrics clock draws servers).length = 10 * servers.length ∧
    (collect_all_metrics clock draws servers).map (fun dp => dp.timestamp) =
      (List.range' 0 (10 * servers.length)).map clock :=
  ⟨collect_go_length clock draws 0 0 servers,
    collect_go_timestamps clock draws 0 0 servers⟩

theorem points_for_unit {dp : DataPoint} (sid : String) (clock : Nat → Nat)
    (t : Nat) (ms : List (String × ℚ)) (h : dp ∈ points_for sid clock t ms) :
    dp.unit = metric_unit dp.metricName := by
  induction ms generalizing t with
  | nil => simp [points_for] at h
  | cons m rest ih =>
    obtain ⟨name, v⟩ := m
    simp only [points_for, List.mem_cons] at h
    rcases h with h | h
    · subst h; rfl
    · exact ih (t + 1) h

theorem collect_go_unit {dp : DataPoint} (clock : Nat → Nat)
    (draws : Nat → TickDraws) (t s : Nat)
    (servers : List (String × ServerBaseline))
    (h : dp ∈ collect_go clock draws t s servers) :
    dp.unit = metric_unit dp.metricName := by
  induction servers generalizing t s with
  | nil => simp [collect_go] at h
  | cons srv rest ih =>
    obtain ⟨sid, g⟩ := srv
    simp only [collect_go, List.mem_append] at h
    rcases h with h | h
    · exact points_for_unit sid clock t _ h
    · exact ih _ _ h

/-- C10: for every data point produced by fleet snapshot collection, the
unit tag is `Percent` exactly when the metric name contains the substring
`usage` (so `cpu_usage` and `memory_usage`), and `None` for every other
metric name — temperature, fan-speed and power points carry unit `None`
rather than Celsius/RPM/Watts tags. -/
theorem C10_unit_tag_iff (clock : Nat → Nat) (draws : Nat → TickDraws)
    (servers : List (String × ServerBaseline)) (dp : DataPoint)
    (h : dp ∈ collect_all_metrics clock draws servers) :
    (dp.unit = "Percent" ↔ List.IsInfix "usage".data dp.metricName.data) ∧
    (dp.unit = "None" ↔ ¬ List.IsInfix "usage".data dp.metricName.data) := by
  have hu : dp.unit = metric_unit dp.metricName :=
    collect_go_unit clock draws 0 0 servers h
  by_cases hc : List.IsInfix "usage".data dp.metricName.data
  · rw [hu, metric_unit, if_pos hc]
    exact ⟨⟨fun _ => hc, fun _ => rfl⟩,
      ⟨fun hp => absurd hp (by decide), fun hn => absurd hc hn⟩⟩
  · rw [hu, metric_unit, if_neg hc]
    exact ⟨⟨fun hp => absurd hp (by decide), fun hyes => absurd hyes hc⟩,
      ⟨fun _ => hc, fun _ => rfl⟩⟩

/-- Witness for C10 at the first data point of a one-server snapshot: a
`cpu1_temp` point, whose unit is `None` because its name does not contain
`usage`. -/
theorem C10_unit_tag_iff_witness :
    ((mkDataPoint "DELL-SRV-001" "cpu1_temp"
        (fleet_cpu_temp gMid dMid.cpu1_noise) 0).unit = "Percent" ↔
      List.IsInfix "usage".data
        (mkDataPoint "DELL-SRV-001" "cpu1_temp"
          (fleet_cpu_temp gMid dMid.cpu1_noise) 0).metricName.data) ∧
    ((mkDataPoint "DELL-SRV-001" "cpu1_temp"
        (fleet_cpu_temp gMid dMid.cpu1_noise) 0).unit = "None" ↔
      ¬ List.IsInfix "usage".data
        (mkDataPoint "DELL-SRV-001" "cpu1_temp"
          (fleet_cpu_temp gMid dMid.cpu1_noise) 0).metricName.data) :=
  C10_unit_tag_iff (fun k => k) (fun _ => dMid) [("DELL-SRV-001", gMid)]
    (mkDataPoint "DELL-SRV-001" "cpu1_temp"
      (fleet_cpu_temp gMid dMid.cpu1_noise) 0)
    (List.mem_append_left _ (List.mem_cons_self _ _))

theorem fleet_publish_go_fst (submit : Nat → Bool) (i : Nat)
    (bs : List (List DataPoint)) :
    (fleet_publish_go submit i bs).1 = List.range' i bs.length := by
  induction bs generalizing i with
  | nil => rfl
  | cons b rest ih =>
    simp only [fleet_publish_go, List.length_cons, List.range'_succ, ih]

theorem fleet_publish_go_snd (submit : Nat → Bool) (i : Nat)
    (bs : List (List DataPoint)) :
    (fleet_publish_go submit i bs).2 =
      (List.range' i bs.length).countP submit := by
  induction bs generalizing i with
  | nil => rfl
  | cons b rest ih =>
    simp only [fleet_publish_go, List.length_cons, List.range'_succ,
      List.countP_cons, ih]
    by_cases h : submit i <;> simp [h] <;> omega

theorem idrac_publish_go_attempted {j : Nat} (submit : Nat → Bool) (i : Nat)
    (bs : List (List DataPoint)) (h : j ∈ idrac_publish_go submit i bs) :
    ∀ k, i ≤ k → k < j → submit k = true := by
  induction bs generalizing i with
  | nil => simp [idrac_publish_go] at h
  | cons b rest ih =>
    simp only [idrac_publish_go] at h
    by_cases hs : submit i
    · rw [if_pos hs] at h
      rcases List.mem_cons.mp h with h | h
      · intro k hk1 hk2; omega
      · intro k hk1 hk2
        rcases Nat.eq_or_lt_of_le hk1 with rfl | hlt
        · exact hs
        · exact ih (i + 1) h k hlt hk2
    · rw [if_neg hs] at h
      simp only [List.mem_singleton] at h
      subst h
      intro k hk1 hk2; omega

theorem batches_replicate_21 :
    batches (List.replicate 21 demoPoint) =
      [List.replicate 20 demoPoint, [demoPoint]] := by
  have e1 : List.replicate 21 demoPoint =
      demoPoint :: List.replicate 20 demoPoint := rfl
  rw [batches, e1, chunksBy]
  have htake : (demoPoint :: List.replicate 20 demoPoint).take (19 + 1) =
      List.replicate 20 demoPoint := by
    simp [List.take_replicate]
  have hdrop : (demoPoint :: List.replicate 20 demoPoint).drop (19 + 1) =
      [demoPoint] := by
    simp [List.drop_replicate]
  rw [htake, hdrop, chunksBy]
  simp [chunksBy]

/-- C3 counterexample: in the single-server publisher
(`CloudWatchPublisher.publish_metrics`), one `try` wraps the whole batch
loop, so when the backend rejects batch 0 but would accept batch 1
(`submit = fun i => i != 0`), only batch 0 is attempted on a 21-point tick
(two batches); the submission attempt for batch 1 never occurs, refuting
per-tick batch independence for this cited publish path. -/
theorem C3_independence_counterexample :
    (batches (List.replicate 21 demoPoint)).length = 2 ∧
    (fun (i : Nat) => i != 0) 1 = true ∧
    idrac_publish_metrics (fun i => i != 0) (List.replicate 21 demoPoint) =
      [0] ∧
    (1 : Nat) ∉ idrac_publish_metrics (fun i => i != 0)
      (List.replicate 21 demoPoint) := by
  have hp : idrac_publish_metrics (fun i => i != 0)
      (List.replicate 21 demoPoint) = [0] := by
    rw [idrac_publish_metrics, batches_replicate_21]
    rfl
  refine ⟨by rw [batches_replicate_21]; rfl, rfl, hp, ?_⟩
  rw [hp]
  decide

/-- C3 amended: in the fleet publisher (`publish_all_metrics` /
`publish_metrics_batch`) batch submissions within one tick are independent —
every batch index is attempted even when an earlier batch fails, the
`successful_batches` counter counts exactly the accepted batches, and the
tick is reported fully successful iff every batch succeeded; in the
single-server publisher (`CloudWatchPublisher.publish_metrics`), by
contrast, a failing batch aborts the remaining batches of that tick. -/
theorem C3_amended_batch_independence (submit : Nat → Bool)
    (l : List DataPoint) (bs : List (List DataPoint)) (i j : Nat)
    (hj : j < bs.length) (hij : i < j) (hfail : submit i = false) :
    j ∈ (fleet_publish_go submit 0 bs).1 ∧
    (fleet_publish_go submit 0 bs).2 =
      (List.range' 0 bs.length).countP submit ∧
    ((publish_all_metrics submit l).2.2 = true ↔
      ∀ k, k < (batches l).length → submit k = true) ∧
    j ∉ idrac_publish_go submit 0 bs := by
  refine ⟨?_, fleet_publish_go_snd submit 0 bs, ?_, ?_⟩
  · rw [fleet_publish_go_fst]
    rw [List.mem_range']
    exact ⟨j, hj, by omega⟩
  · have hrep : (publish_all_metrics submit l).2.2 =
        ((fleet_publish_go submit 0 (batches l)).2 ==
          total_batches l.length) := rfl
    rw [hrep, beq_iff_eq, fleet_publish_go_snd, total_batches_eq]
    constructor
    · intro hc k hk
      have hc2 : List.countP submit (List.range' 0 (batches l).length) =
          (List.range' 0 (batches l).length).length := by
        rw [List.length_range']
        exact hc
      have hall := List.countP_eq_length.mp hc2
      exact hall k (by rw [List.mem_range']; exact ⟨k, hk, by omega⟩)
    · intro hall
      have : (List.range' 0 (batches l).length).countP submit =
          (List.range' 0 (batches l).length).length := by
        rw [List.countP_eq_length]
        intro a ha
        rw [List.mem_range'] at ha
        obtain ⟨m, hm, rfl⟩ := ha
        exact hall _ (by omega)
      simpa using this
  · intro hmem
    have := idrac_publish_go_attempted submit 0 bs hmem i (Nat.zero_le i) hij
    rw [hfail] at this
    exact Bool.false_ne_true this

/-- Witness for C3 amended: two one-point batches, the backend rejecting
batch 0 and accepting batch 1; the fleet loop attempts batch 1, the
single-server loop does not. -/
theorem C3_amended_batch_independence_witness :
    1 ∈ (fleet_publish_go (fun k => k != 0) 0 [[demoPoint], [demoPoint]]).1 ∧
    1 ∉ idrac_publish_go (fun k => k != 0) 0 [[demoPoint], [demoPoint]] :=
  ⟨(C3_amended_batch_independence (fun k => k != 0)
      (List.replicate 21 demoPoint) [[demoPoint], [demoPoint]] 0 1
      (by decide) (by decide) rfl).1,
    (C3_amended_batch_independence (fun k => k != 0)
      (List.replicate 21 demoPoint) [[demoPoint], [demoPoint]] 0 1
      (by decide) (by decide) rfl).2.2.2⟩

/-- C8 counterexample: at the negative maxSize -1 the batching loop does
not fail with any error — Python `range(0, len, -1)` is simply empty, so
the loop silently produces zero batches and no InvalidArgument (or any
other) error is raised. -/
theorem C8_invalid_maxsize_counterexample :
    chunk_with_step [demoPoint] (-1) = Except.ok [] ∧ (-1 : Int) ≤ 0 :=
  ⟨rfl, by decide⟩

/-- C8 amended: the deployed batching runs at the fixed size 20 and is a
total function; generalizing the slicing loop over the step, step 0 fails
with the ValueError raised by `range` itself (there is no dedicated
InvalidArgument validation), every negative step silently produces zero
batches without error, and every positive step — in particular the code's
step 20 — is total. -/
theorem C8_amended_step_behaviour (l : List DataPoint) (k : Int)
    (hneg : k < 0) :
    chunk_with_step l 0 =
      Except.error "ValueError: range() arg 3 must not be zero" ∧
    chunk_with_step l k = Except.ok [] ∧
    chunk_with_step l 20 = Except.ok (batches l) := by
  refine ⟨rfl, ?_, ?_⟩
  · unfold chunk_with_step
    rw [if_neg (by omega), if_pos hneg]
  · unfold chunk_with_step
    rw [if_neg (by norm_num), if_neg (by norm_num)]
    rfl

/-- Witness for C8 amended at the concrete negative maxSize -7 and a
one-point input. -/
theorem C8_amended_step_behaviour_witness :
    chunk_with_step [demoPoint] (-7) = Except.ok [] :=
  (C8_amended_step_behaviour [demoPoint] (-7) (by decide)).2.1

/-- C9 counterexample: `SYSTEM_STATUS_OID` and `CHASSIS_STATUS_OID` are the
same OID tuple, so the declared OID constants are not pairwise distinct and
the twelve registered readings do not map one-to-one to OIDs — the
chassis-status `writeVars` call lands on the same OID as the system-status
one. -/
theorem C9_oid_clash_counterexample :
    SYSTEM_STATUS_OID = CHASSIS_STATUS_OID ∧ ¬ registered_oids.Nodup :=
  ⟨rfl, by decide⟩

/-- C9 amended: the declared OID constants are pairwise distinct except
that `SYSTEM_STATUS_OID` equals `CHASSIS_STATUS_OID`; with the chassis
duplicate removed, the remaining eleven OIDs are pairwise distinct, so the
SNMP facade registers readings at exactly eleven distinct OIDs, four of
them status OIDs. -/
theorem C9_amended_oid_distinctness :
    SYSTEM_STATUS_OID = CHASSIS_STATUS_OID ∧
    [CPU_TEMP_OID, INLET_TEMP_OID, EXHAUST_TEMP_OID, FAN1_SPEED_OID,
     FAN2_SPEED_OID, FAN3_SPEED_OID, POWER_CONSUMPTION_OID, POWER_STATUS_OID,
     SYSTEM_STATUS_OID, MEMORY_STATUS_OID, DISK_STATUS_OID].Nodup ∧
    [POWER_STATUS_OID, SYSTEM_STATUS_OID, MEMORY_STATUS_OID,
     DISK_STATUS_OID].Nodup :=
  ⟨rfl, by decide, by decide⟩

end IdracEmu
